import Mathlib

/-!
# APES network scenarios: ingress filter, trace counters and flow report

A shallow embedding of the hand-written parts of the scenario programs

* `IP_Spoofing_Working_Code.cc`: `IngressFilterRx`, `SendSpoofedPacket`, the
  router addressing and the schedule loop of `main`;
* `TCP-Packet-drops-time.cc` / `UDP-Packet-drops-time.cc`: the three trace
  callbacks with their global counters and the summary printed by `main`;
* `tcpvsudp.cc` and `aqmred.cc`: the per-flow report loops of `main`, and the
  queue configuration of `aqmred.cc`;
* `point-to-pointdelay.cc`: the default link configuration.

The flow monitor, the link and the RED queue discipline are not part of the
scenario sources; where a statement needs them they are modelled from the
specification, and the definitions say so.

The simulator library the programs call into (packets, headers, the abstract
`Ipv4` object, `std::cout`) is represented by small value types: a packet is a
stack of headers over a payload, `std::cout` is the list of records written
so far, the virtual clock is a number of nanoseconds, a `double` is an IEEE
754 binary64 value with correctly rounded operations.
-/

namespace APES

/-! ## Library value types used by the scenarios -/

/-- Virtual time as kept by the simulator, in nanoseconds. -/
abbrev Time := Nat

/-- An IPv4 address, held as its 32-bit host-order value (`m_address`). -/
structure Ipv4Address where
  m_address : Nat
deriving DecidableEq, Repr

/-- An IPv4 network mask, held as its 32-bit value (`m_mask`). -/
structure Ipv4Mask where
  m_mask : Nat
deriving DecidableEq, Repr

/-- Dotted-quad constructor, as in `Ipv4Address ("10.1.1.10")`. -/
def Ipv4Address.ofOctets (a b c d : Nat) : Ipv4Address :=
  ⟨a * 2 ^ 24 + b * 2 ^ 16 + c * 2 ^ 8 + d⟩

/-- Dotted-quad constructor for masks, as in `"255.255.255.0"`. -/
def Ipv4Mask.ofOctets (a b c d : Nat) : Ipv4Mask :=
  ⟨a * 2 ^ 24 + b * 2 ^ 16 + c * 2 ^ 8 + d⟩

/-- The library call `Ipv4Address::CombineMask`: bitwise AND of address and mask. -/
def Ipv4Address.CombineMask (a : Ipv4Address) (mask : Ipv4Mask) : Ipv4Address :=
  ⟨a.m_address &&& mask.m_mask⟩

/-- One address assigned to an interface: local address and mask. -/
structure Ipv4InterfaceAddress where
  m_local : Ipv4Address
  m_mask : Ipv4Mask
deriving DecidableEq, Repr

def Ipv4InterfaceAddress.GetLocal (ia : Ipv4InterfaceAddress) : Ipv4Address := ia.m_local

def Ipv4InterfaceAddress.GetMask (ia : Ipv4InterfaceAddress) : Ipv4Mask := ia.m_mask

/-- The IPv4 header fields the scenario sets and reads. -/
structure Ipv4Header where
  m_source : Ipv4Address
  m_destination : Ipv4Address
  m_protocol : Nat
  m_payloadSize : Nat
  m_ttl : Nat
deriving DecidableEq, Repr

/-- A freshly declared header (`Ipv4Header ip;`). Every field modelled here is
overwritten by `SendSpoofedPacket` before the header is used. -/
def Ipv4Header.fresh : Ipv4Header := ⟨⟨0⟩, ⟨0⟩, 0, 0, 0⟩

def Ipv4Header.SetSource (h : Ipv4Header) (a : Ipv4Address) : Ipv4Header :=
  { h with m_source := a }

def Ipv4Header.SetDestination (h : Ipv4Header) (a : Ipv4Address) : Ipv4Header :=
  { h with m_destination := a }

/-- The protocol field is a `uint8_t`. -/
def Ipv4Header.SetProtocol (h : Ipv4Header) (num : Nat) : Ipv4Header :=
  { h with m_protocol := num % 2 ^ 8 }

/-- The payload size is a `uint16_t`. -/
def Ipv4Header.SetPayloadSize (h : Ipv4Header) (size : Nat) : Ipv4Header :=
  { h with m_payloadSize := size % 2 ^ 16 }

/-- The time-to-live field is a `uint8_t`. -/
def Ipv4Header.SetTtl (h : Ipv4Header) (ttl : Nat) : Ipv4Header :=
  { h with m_ttl := ttl % 2 ^ 8 }

def Ipv4Header.GetSource (h : Ipv4Header) : Ipv4Address := h.m_source

def Ipv4Header.GetProtocol (h : Ipv4Header) : Nat := h.m_protocol

/-- One element of a packet's header stack: an IPv4 header, or leading bytes
that do not decode as one. -/
inductive Chunk where
  | ipv4 (h : Ipv4Header)
  | raw (bytes : List Nat)
deriving DecidableEq, Repr

/-- A packet: header stack (outermost first) over the payload bytes. -/
structure Packet where
  headers : List Chunk
  payload : List Nat
deriving DecidableEq, Repr

/-- The call `Create<Packet> (size)`: no headers, `size` zero-filled payload bytes. -/
def Packet.Create (size : Nat) : Packet := ⟨[], List.replicate size 0⟩

/-- The call `Packet::Copy`: an independent packet with the same content. -/
def Packet.Copy (p : Packet) : Packet := p

/-- The call `Packet::AddHeader`: push a header on the front. -/
def Packet.AddHeader (p : Packet) (h : Ipv4Header) : Packet :=
  { p with headers := Chunk.ipv4 h :: p.headers }

/-- The call `Packet::PeekHeader` for an `Ipv4Header`: read the outermost
header without removing it; `none` when the front of the packet is not an
IPv4 header. -/
def Packet.PeekHeader (p : Packet) : Option Ipv4Header :=
  match p.headers with
  | Chunk.ipv4 h :: _ => some h
  | _ => none

/-- Serialized size of one header-stack element (an IPv4 header without
options takes 20 bytes). -/
def Chunk.size : Chunk → Nat
  | Chunk.ipv4 _ => 20
  | Chunk.raw bytes => bytes.length

/-- The call `Packet::GetSize`: total bytes of headers and payload (a `uint32_t`). -/
def Packet.GetSize (p : Packet) : Nat :=
  ((p.headers.map Chunk.size).sum + p.payload.length) % 2 ^ 32

/-- The abstract `Ipv4` object of a node, as far as the filter uses it: the
two virtual methods `IsDestinationAddress` and `GetAddress`. -/
structure Ipv4 where
  IsDestinationAddress : Ipv4Address → Nat → Bool
  GetAddress : Nat → Nat → Ipv4InterfaceAddress

/-! ## `IP_Spoofing_Working_Code.cc` -/

/-- One line written by the filter: time, flagged source, interface. -/
structure Detection where
  time : Time
  src : Ipv4Address
  interface : Nat
deriving DecidableEq, Repr

/-- What is observable after one call of `IngressFilterRx`: the inspected
packet object (behind the `Ptr<const Packet>` argument) and `std::cout`. -/
structure RxOutcome where
  packet : Packet
  cout : List Detection
deriving DecidableEq, Repr

/-- The trace sink `IngressFilterRx (packet, ipv4, interface)`. `now` is
`Simulator::Now ()` at the call and `cout` the output written so far. -/
def IngressFilterRx (now : Time) (packet : Packet) (ipv4 : Ipv4) (interface : Nat)
    (cout : List Detection) : RxOutcome :=
  -- Only attacker-facing interface (router interface 1)
  if interface ≠ 1 then ⟨packet, cout⟩
  else
    let p := packet.Copy
    match p.PeekHeader with
    | none => ⟨packet, cout⟩
    | some ip =>
      -- Only UDP packets
      if ip.GetProtocol ≠ 17 then ⟨packet, cout⟩
      else
        let src := ip.GetSource
        -- Ignore router-originated packets
        if ipv4.IsDestinationAddress src interface = true then ⟨packet, cout⟩
        else
          let ifAddr := ipv4.GetAddress interface 0
          let ifaceSubnet := ifAddr.GetLocal.CombineMask ifAddr.GetMask
          if src.CombineMask ifAddr.GetMask ≠ ifaceSubnet then
            ⟨packet, cout ++ [⟨now, src, interface⟩]⟩
          else ⟨packet, cout⟩

/-- Destination of a `SendTo`: address and port. -/
structure InetSocketAddress where
  addr : Ipv4Address
  port : Nat
deriving DecidableEq, Repr

/-- One datagram handed to a socket. -/
structure Datagram where
  packet : Packet
  flags : Nat
  toAddress : InetSocketAddress
deriving DecidableEq, Repr

/-- The raw socket, as the sequence of datagrams handed to it so far. -/
structure Socket where
  sent : List Datagram
deriving DecidableEq, Repr

/-- The call `Socket::SendTo`. -/
def Socket.SendTo (s : Socket) (p : Packet) (flags : Nat) (toAddress : InetSocketAddress) :
    Socket :=
  { s with sent := s.sent ++ [⟨p, flags, toAddress⟩] }

/-- The scheduled action `SendSpoofedPacket (socket, spoofedSrc, dst)`. -/
def SendSpoofedPacket (socket : Socket) (spoofedSrc dst : Ipv4Address) : Socket :=
  let pkt := Packet.Create 512
  let ip := Ipv4Header.fresh
  let ip := ip.SetSource spoofedSrc
  let ip := ip.SetDestination dst
  let ip := ip.SetProtocol 17
  let ip := ip.SetPayloadSize 512
  let ip := ip.SetTtl 64
  let pkt := pkt.AddHeader ip
  socket.SendTo pkt 0 ⟨dst, 9⟩

/-- Modelled from the spec: the library method behind `IsDestinationAddress`
is not part of the scenario sources. Section 4.4 describes the accepted
sources as "a source address that equals an address already assigned to the
receiving router"; this builds the `Ipv4` object of a node from its
per-interface address lists accordingly. `GetAddress` reads the list. -/
def Ipv4.ofInterfaces (ifs : List (List Ipv4InterfaceAddress)) : Ipv4 where
  IsDestinationAddress := fun a _ =>
    ifs.any (fun addrs => addrs.any (fun ia => decide (ia.GetLocal = a)))
  GetAddress := fun i j => (ifs.getD i []).getD j ⟨⟨0⟩, ⟨0⟩⟩

/-- The router (node 1) as addressed by `main`: interface 0 is the loopback,
interface 1 the attacker link (second address of `10.1.1.0/24`), interface 2
the victim link (first address of `10.1.2.0/24`). -/
def routerIpv4 : Ipv4 :=
  Ipv4.ofInterfaces
    [ [⟨Ipv4Address.ofOctets 127 0 0 1, Ipv4Mask.ofOctets 255 0 0 0⟩],
      [⟨Ipv4Address.ofOctets 10 1 1 2, Ipv4Mask.ofOctets 255 255 255 0⟩],
      [⟨Ipv4Address.ofOctets 10 1 2 1, Ipv4Mask.ofOctets 255 255 255 0⟩] ]

/-! ## `TCP-Packet-drops-time.cc` and `UDP-Packet-drops-time.cc`

The two programs declare the same three global counters and the same three
trace callbacks; they differ in the traffic applications only. -/

/-- The item handed to the queue-disc drop trace; it wraps the dropped packet. -/
structure QueueDiscItem where
  m_packet : Packet
deriving DecidableEq, Repr

def QueueDiscItem.GetPacket (item : QueueDiscItem) : Packet := item.m_packet

/-- One `[QUEUE DROP]` line: the virtual time and the packet size printed. -/
structure DropRecord where
  time : Time
  size : Nat
deriving DecidableEq, Repr

/-- The process-wide state the callbacks act on: the three `uint64_t`
counters and the drop lines written to `std::cout`. -/
structure TraceState where
  client1TxPackets : Nat
  client2TxPackets : Nat
  totalQueueDrops : Nat
  cout : List DropRecord
deriving DecidableEq, Repr

/-- The globals as initialised: all counters `0`, nothing printed. -/
def TraceState.initial : TraceState := ⟨0, 0, 0, []⟩

/-- The callback `Client1TxTrace (packet)`: `client1TxPackets++` on a `uint64_t`. -/
def Client1TxTrace (_packet : Packet) (s : TraceState) : TraceState :=
  { s with client1TxPackets := (s.client1TxPackets + 1) % 2 ^ 64 }

/-- The callback `Client2TxTrace (packet)`: `client2TxPackets++` on a `uint64_t`. -/
def Client2TxTrace (_packet : Packet) (s : TraceState) : TraceState :=
  { s with client2TxPackets := (s.client2TxPackets + 1) % 2 ^ 64 }

/-- The callback `QueueDiscDropTrace (item)`: `totalQueueDrops++`, then one
line with `Simulator::Now ()` and the size of the dropped packet. -/
def QueueDiscDropTrace (now : Time) (item : QueueDiscItem) (s : TraceState) : TraceState :=
  { s with
    totalQueueDrops := (s.totalQueueDrops + 1) % 2 ^ 64
    cout := s.cout ++ [⟨now, item.GetPacket.GetSize⟩] }

/-- One firing of a connected trace source during `Simulator::Run ()`. -/
inductive TraceEvent where
  | client1Tx (packet : Packet)
  | client2Tx (packet : Packet)
  | queueDrop (now : Time) (item : QueueDiscItem)
deriving DecidableEq, Repr

/-- Dispatch of one trace firing to the callback connected to it. -/
def TraceEvent.fire (e : TraceEvent) (s : TraceState) : TraceState :=
  match e with
  | TraceEvent.client1Tx packet => Client1TxTrace packet s
  | TraceEvent.client2Tx packet => Client2TxTrace packet s
  | TraceEvent.queueDrop now item => QueueDiscDropTrace now item s

/-- The run: the trace firings take effect one after the other. -/
def runTrace (events : List TraceEvent) (s : TraceState) : TraceState :=
  events.foldl (fun st e => e.fire st) s

def TraceEvent.isClient1Tx : TraceEvent → Bool
  | TraceEvent.client1Tx _ => true
  | _ => false

def TraceEvent.isClient2Tx : TraceEvent → Bool
  | TraceEvent.client2Tx _ => true
  | _ => false

def TraceEvent.isQueueDrop : TraceEvent → Bool
  | TraceEvent.queueDrop _ _ => true
  | _ => false

/-- The four numbers of the transmission summary printed after the run. -/
structure Summary where
  client1Tx : Nat
  client2Tx : Nat
  totalTx : Nat
  totalQueueDrops : Nat
deriving DecidableEq, Repr

/-- The summary lines of `main`; the total is a `uint64_t` sum. -/
def summary (s : TraceState) : Summary :=
  { client1Tx := s.client1TxPackets
    client2Tx := s.client2TxPackets
    totalTx := (s.client1TxPackets + s.client2TxPackets) % 2 ^ 64
    totalQueueDrops := s.totalQueueDrops }

/-! ## IEEE 754 binary64 (`double`)

The reports compute with `double`. A `double` is held as a sign, an odd
significand and a binary exponent; every operation rounds its exact result to
the nearest value with a 53-bit significand, ties to even, with signed zeros,
gradual underflow, overflow to infinity, and NaN. -/

/-- Number of binary digits of `n` (`0` for `0`); `fuel` bounds the recursion. -/
def bitLength : Nat → Nat → Nat
  | 0, _ => 0
  | fuel + 1, n => if n = 0 then 0 else bitLength fuel (n / 2) + 1

/-- Remove the factors of two of `m`, raising the exponent accordingly. -/
def stripTwos : Nat → Nat → Int → Nat × Int
  | 0, m, e => (m, e)
  | fuel + 1, m, e =>
    if m ≠ 0 ∧ m % 2 = 0 then stripTwos fuel (m / 2) (e + 1) else (m, e)

/-- A binary64 value: `finite neg m e` is `(-1)^neg * m * 2^e`, kept in normal
form (`m` odd, or `m = 0` and `e = 0` for a signed zero). -/
inductive Double where
  | finite (neg : Bool) (m : Nat) (e : Int)
  | inf (neg : Bool)
  | nan
deriving DecidableEq, Repr

/-- The binary64 value nearest to `(-1)^neg * (n / d) * 2^s` for `n, d > 0`:
53-bit significand, ties to even, gradual underflow below `2^-1022`,
overflow to infinity from `2^1024`. -/
def Double.round (neg : Bool) (n d : Nat) (s : Int) : Double :=
  let b : Int := (bitLength n n : Int) - (bitLength d d : Int)
  let ge : Bool := if 0 ≤ b then decide (d * 2 ^ b.toNat ≤ n) else decide (d ≤ n * 2 ^ (-b).toNat)
  let e : Int := (if ge = true then b else b - 1) + s
  let qe : Int := max (e - 52) (-1074)
  let k : Int := s - qe
  let num : Nat := if 0 ≤ k then n * 2 ^ k.toNat else n
  let den : Nat := if 0 ≤ k then d else d * 2 ^ (-k).toNat
  let q := num / den
  let r := num % den
  let m := if 2 * r < den then q else if den < 2 * r then q + 1 else if q % 2 = 0 then q else q + 1
  if m = 0 then Double.finite neg 0 0
  else if 1025 ≤ (bitLength m m : Int) + qe then Double.inf neg
  else Double.finite neg (stripTwos m m qe).1 (stripTwos m m qe).2

/-- Conversion of an unsigned integer to `double`. -/
def Double.ofNat (n : Nat) : Double :=
  if n = 0 then Double.finite false 0 0 else Double.round false n 1 0

/-- Sign change of a binary64 value. -/
def Double.neg : Double → Double
  | Double.finite s m e => Double.finite (!s) m e
  | Double.inf s => Double.inf (!s)
  | Double.nan => Double.nan

/-- Binary64 multiplication. -/
def Double.mul : Double → Double → Double
  | Double.nan, _ => Double.nan
  | _, Double.nan => Double.nan
  | Double.inf a, Double.inf b => Double.inf (xor a b)
  | Double.inf a, Double.finite b m _ => if m = 0 then Double.nan else Double.inf (xor a b)
  | Double.finite a m _, Double.inf b => if m = 0 then Double.nan else Double.inf (xor a b)
  | Double.finite a m1 e1, Double.finite b m2 e2 =>
    if m1 = 0 ∨ m2 = 0 then Double.finite (xor a b) 0 0
    else Double.round (xor a b) (m1 * m2) 1 (e1 + e2)

/-- Binary64 division. -/
def Double.div : Double → Double → Double
  | Double.nan, _ => Double.nan
  | _, Double.nan => Double.nan
  | Double.inf _, Double.inf _ => Double.nan
  | Double.inf a, Double.finite b _ _ => Double.inf (xor a b)
  | Double.finite a _ _, Double.inf b => Double.finite (xor a b) 0 0
  | Double.finite a m1 e1, Double.finite b m2 e2 =>
    if m2 = 0 then (if m1 = 0 then Double.nan else Double.inf (xor a b))
    else if m1 = 0 then Double.finite (xor a b) 0 0
    else Double.round (xor a b) m1 m2 (e1 - e2)

/-- Binary64 addition (round to nearest, ties to even). -/
def Double.add : Double → Double → Double
  | Double.nan, _ => Double.nan
  | _, Double.nan => Double.nan
  | Double.inf a, Double.inf b => if a = b then Double.inf a else Double.nan
  | Double.inf a, Double.finite _ _ _ => Double.inf a
  | Double.finite _ _ _, Double.inf b => Double.inf b
  | Double.finite a m1 e1, Double.finite b m2 e2 =>
    if m1 = 0 ∧ m2 = 0 then Double.finite (a && b) 0 0
    else
      let e := min e1 e2
      let x1 : Int := (if a = true then -1 else 1) * ((m1 * 2 ^ (e1 - e).toNat : Nat) : Int)
      let x2 : Int := (if b = true then -1 else 1) * ((m2 * 2 ^ (e2 - e).toNat : Nat) : Int)
      let v := x1 + x2
      if v = 0 then Double.finite false 0 0
      else Double.round (decide (v < 0)) v.natAbs 1 e

/-- Binary64 subtraction. -/
def Double.sub (a b : Double) : Double := Double.add a (Double.neg b)

/-! ## `tcpvsudp.cc`: the per-flow report -/

/-- The fields of `FlowMonitor::FlowStats` read by the scenario reports. -/
structure FlowStats where
  timeFirstTxPacket : Time
  timeLastRxPacket : Time
  delaySum : Time
  txBytes : Nat
  rxBytes : Nat
  txPackets : Nat
  rxPackets : Nat
  lostPackets : Nat
deriving DecidableEq, Repr

/-- The call `Time::GetSeconds` on a time of `t` nanoseconds: `t` as a
`double`, divided by `1e9`. -/
def GetSeconds (t : Time) : Double :=
  Double.div (Double.ofNat t) (Double.ofNat 1000000000)

/-- The classifier's answer for a flow id. -/
structure FiveTuple where
  sourceAddress : Ipv4Address
  destinationAddress : Ipv4Address
  protocol : Nat
  sourcePort : Nat
  destinationPort : Nat
deriving DecidableEq, Repr

/-- One printed report line of `tcpvsudp.cc`. -/
structure FlowLine where
  flowId : Nat
  sourceAddress : Ipv4Address
  destinationAddress : Ipv4Address
  throughput : Double
  lostPackets : Nat
deriving DecidableEq, Repr

/-- The local `throughput` of the report loop:
`rxBytes * 8.0 / (timeLastRxPacket.GetSeconds () - timeFirstTxPacket.GetSeconds ()) / 1e6`. -/
def throughput (st : FlowStats) : Double :=
  Double.div
    (Double.div (Double.mul (Double.ofNat st.rxBytes) (Double.ofNat 8))
      (Double.sub (GetSeconds st.timeLastRxPacket) (GetSeconds st.timeFirstTxPacket)))
    (Double.ofNat 1000000)

/-- The report loop of `main` in `tcpvsudp.cc` over the flow-statistics map
(in key order): one line per flow. -/
def tcpvsudpReport (classifier : Nat → FiveTuple) (stats : List (Nat × FlowStats)) :
    List FlowLine :=
  stats.map (fun it =>
    let t := classifier it.1
    let throughput := throughput it.2
    ⟨it.1, t.sourceAddress, t.destinationAddress, throughput, it.2.lostPackets⟩)

/-- The formula of the specification for a flow's throughput, in bits per
second: `rxBytes × 8 / (lastRxTime − firstTxTime)`, with the times in seconds
and the operations of `double`. -/
def specThroughput (st : FlowStats) : Double :=
  Double.div (Double.mul (Double.ofNat st.rxBytes) (Double.ofNat 8))
    (Double.sub (GetSeconds st.timeLastRxPacket) (GetSeconds st.timeFirstTxPacket))

/-! ## `aqmred.cc`: the per-flow report and the queue configuration -/

/-- One flow's block of the `aqmred.cc` report: the `Lost packets` line, and
the `Mean delay` line when it is printed. -/
structure AqmFlowLine where
  flowId : Nat
  sourceAddress : Ipv4Address
  destinationAddress : Ipv4Address
  lostPackets : Nat
  meanDelay : Option Double
deriving DecidableEq, Repr

/-- The report loop of `main` in `aqmred.cc` over the flow-statistics map:
the mean delay `delaySum.GetSeconds () / rxPackets` is computed inside
`if (flow.second.rxPackets > 0)` only. -/
def aqmredReport (classifier : Nat → FiveTuple) (stats : List (Nat × FlowStats)) :
    List AqmFlowLine :=
  stats.map (fun flow =>
    let t := classifier flow.1
    ⟨flow.1, t.sourceAddress, t.destinationAddress, flow.2.lostPackets,
      if flow.2.rxPackets > 0 then
        some (Double.div (GetSeconds flow.2.delaySum) (Double.ofNat flow.2.rxPackets))
      else none⟩)

/-- Modelled from the spec: the flow monitor that fills the statistics map is
not among the scenario sources. Section 3 lists what a flow record tracks:
the counts, `firstTxTime`, `lastRxTime` and the sum of per-packet delays. -/
structure FlowRecord where
  txPackets : Nat
  rxPackets : Nat
  txBytes : Nat
  rxBytes : Nat
  firstTxTime : Time
  lastRxTime : Time
  delaySum : Time
deriving DecidableEq, Repr

/-- Modelled from the spec: the flow monitor's `snapshot` is not among the
scenario sources. Section 4.5: "`lostPackets` is always derived as
`txPackets − rxPackets` at snapshot time, never tracked incrementally". The
counter is unsigned, so the difference is taken in the naturals. -/
def FlowRecord.snapshot (r : FlowRecord) : FlowStats :=
  { timeFirstTxPacket := r.firstTxTime
    timeLastRxPacket := r.lastRxTime
    delaySum := r.delaySum
    txBytes := r.txBytes
    rxBytes := r.rxBytes
    txPackets := r.txPackets
    rxPackets := r.rxPackets
    lostPackets := r.txPackets - r.rxPackets }

/-- Modelled from the spec: the statistics map handed to the report loops,
one snapshot per tracked flow. -/
def snapshotAll (records : List (Nat × FlowRecord)) : List (Nat × FlowStats) :=
  records.map (fun fr => (fr.1, fr.2.snapshot))

/-- Modelled from the spec: the RED queue discipline is not among the
scenario sources; `aqmred.cc` only configures it. The parameters are those of
section 6 (MinTh, MaxTh, gentle-mode flag, capacity), the "configured maximum
mark probability" of section 4.3, and the scaling "by a count of packets
admitted since the last drop", which section 4.3 names without defining. -/
structure RedConfig where
  minTh : ℚ
  maxTh : ℚ
  maxP : ℚ
  gentle : Bool
  capacity : Nat
  countScale : Nat → ℚ → ℚ

/-- The configuration `tch.SetRootQueueDisc ("ns3::RedQueueDisc", ...)` of
`aqmred.cc`: `MinTh` 2, `MaxTh` 5, `MaxSize` 20 packets, `Gentle` true. The
maximum mark probability and the count scaling are not set by the scenario. -/
def aqmredQueue (maxP : ℚ) (countScale : Nat → ℚ → ℚ) : RedConfig :=
  { minTh := 2, maxTh := 5, maxP := maxP, gentle := true, capacity := 20,
    countScale := countScale }

/-- Modelled from the spec: the probability at `MinTh <= avg < MaxTh` of
section 4.3, "linearly interpolated between 0 and a configured maximum mark
probability based on position between MinTh and MaxTh, further scaled by a
count of packets admitted since the last drop". -/
def RedConfig.earlyProbability (c : RedConfig) (count : Nat) (avg : ℚ) : ℚ :=
  c.countScale count (c.maxP * (avg - c.minTh) / (c.maxTh - c.minTh))

/-- Modelled from the spec: the drop decision of section 4.3 as a probability.
Below `MinTh` the packet is admitted unconditionally; from `MaxTh` on, the
non-gentle mode drops unconditionally, the gentle mode goes "linearly from the
MaxTh probability up to 1.0 as `avg` rises from MaxTh to 2×MaxTh, dropping
unconditionally beyond 2×MaxTh"; in between the early probability applies. -/
def RedConfig.dropProbability (c : RedConfig) (count : Nat) (avg : ℚ) : ℚ :=
  if avg < c.minTh then 0
  else if c.maxTh ≤ avg then
    if c.gentle = true then
      if 2 * c.maxTh ≤ avg then 1
      else
        c.earlyProbability count c.maxTh +
          (1 - c.earlyProbability count c.maxTh) * (avg - c.maxTh) / c.maxTh
    else 1
  else c.earlyProbability count avg

/-! ## `point-to-pointdelay.cc`: the link configuration -/

namespace PointToPointDelay

/-- The default `dataRate = "10Mbps"`, in bits per second. -/
def dataRate : ℚ := 10000000

/-- The default `delay = "10ms"`, in seconds. -/
def delay : ℚ := 10 / 1000

/-- The default `packetSize = 1024`, in bytes. -/
def packetSize : Nat := 1024

/-- The default `numPackets = 1`. -/
def numPackets : Nat := 1

end PointToPointDelay

/-- Modelled from the spec: the link is not among the scenario sources.
Section 3: a link has a data rate in bits per second and a fixed propagation
delay. -/
structure Link where
  dataRate : ℚ
  propagationDelay : ℚ
deriving DecidableEq

/-- Modelled from the spec: section 4.2, "Transmission delay = packet size in
bits / configured data rate". -/
def Link.transmissionDelay (l : Link) (packetBits : ℚ) : ℚ :=
  packetBits / l.dataRate

/-- The two events of one transmission: completion and arrival times. -/
structure TransmitEvents where
  completion : ℚ
  arrival : ℚ
deriving DecidableEq

/-- Modelled from the spec: section 4.2, "the completion event fires at
(now + transmissionDelay), and a second event — packet arrival at the remote
interface — fires at (completionTime + propagationDelay)". -/
def Link.transmit (l : Link) (now : ℚ) (packetBits : ℚ) : TransmitEvents :=
  let completionTime := now + l.transmissionDelay packetBits
  { completion := completionTime, arrival := completionTime + l.propagationDelay }

/-- The link of `point-to-pointdelay.cc` with its default configuration. -/
def pointToPointLink : Link :=
  { dataRate := PointToPointDelay.dataRate, propagationDelay := PointToPointDelay.delay }

/-! ## `IP_Spoofing_Working_Code.cc`: the schedule loop

The loop counter is a `double`. The loop is written over the arithmetic it
uses, and that arithmetic is IEEE 754 binary64 with the values held as
multiples of `2^-56`. -/

/-- The address of router interface 2 (`10.1.2.1`). -/
def routerVictimSide : Ipv4Address := Ipv4Address.ofOctets 10 1 2 1

/-- The victim's address (`if12.GetAddress (1)`, `10.1.2.2`). -/
def victimAddress : Ipv4Address := Ipv4Address.ofOctets 10 1 2 2

/-- The packet content built by `SendSpoofedPacket` for a given source. -/
def spoofed (src dst : Ipv4Address) : Packet :=
  ⟨[Chunk.ipv4 ⟨src, dst, 17, 512, 64⟩], List.replicate 512 0⟩

/-- A flow none of whose packets arrived: first transmission at 1 s. -/
def flowNoRx : FlowStats :=
  { timeFirstTxPacket := 1000000000, timeLastRxPacket := 0, delaySum := 0,
    txBytes := 4500, rxBytes := 0, txPackets := 3, rxPackets := 0, lostPackets := 3 }

/-- A flow that received 1000000 bytes between 1 s and 2 s. -/
def flowOneSecond : FlowStats :=
  { timeFirstTxPacket := 1000000000, timeLastRxPacket := 2000000000, delaySum := 12000000,
    txBytes := 1000000, rxBytes := 1000000, txPackets := 1000, rxPackets := 1000,
    lostPackets := 0 }

/-- A classifier answering every flow id with the same client/server pair. -/
def sampleClassifier : Nat → FiveTuple :=
  fun _ => ⟨Ipv4Address.ofOctets 10 1 1 1, Ipv4Address.ofOctets 10 1 3 2, 17, 49153, 8000⟩

/-- A count scaling used as an example: the probability grows with the count
and is capped at 1. -/
def sampleCountScale : Nat → ℚ → ℚ :=
  fun count p => min 1 (p * (1 + (count : ℚ)))

/-! ## Shared lemmas -/

/-- The filter's outcome on interface 1 for a packet with a parsed header of
protocol 17: the two remaining guards decide. -/
theorem IngressFilterRx_udp_on_one (now : Time) (packet : Packet) (ipv4 : Ipv4)
    (cout : List Detection) (ip : Ipv4Header)
    (hpeek : packet.PeekHeader = some ip) (hproto : ip.GetProtocol = 17) :
    IngressFilterRx now packet ipv4 1 cout =
      if ipv4.IsDestinationAddress ip.GetSource 1 = true then ⟨packet, cout⟩
      else if ip.GetSource.CombineMask (ipv4.GetAddress 1 0).GetMask ≠
          (ipv4.GetAddress 1 0).GetLocal.CombineMask (ipv4.GetAddress 1 0).GetMask then
        ⟨packet, cout ++ [⟨now, ip.GetSource, 1⟩]⟩
      else ⟨packet, cout⟩ := by
  simp [IngressFilterRx, Packet.Copy, hpeek, hproto]

/-- Appending one record never gives back the same output. -/
theorem append_singleton_ne_self {α : Type} (l : List α) (d : α) : l ++ [d] ≠ l := by
  intro h
  have hlen := congrArg List.length h
  simp at hlen

/-- Reading back the header of a packet built for a source. -/
theorem spoofed_PeekHeader (src dst : Ipv4Address) :
    (spoofed src dst).PeekHeader = some ⟨src, dst, 17, 512, 64⟩ := rfl

/-! ## Ingress filter (`IP_Spoofing_Working_Code.cc`) -/

/-- C1 (as stated) fails: the packet with source `10.1.2.1`, the router's own
address on interface 2, arrives on interface 1 with a parseable header of
protocol 17; its masked source `10.1.2.0` differs from the interface subnet
`10.1.1.0`, yet no detection is emitted. -/
theorem C1_masked_mismatch_not_flagged :
    (spoofed routerVictimSide victimAddress).PeekHeader =
        some ⟨routerVictimSide, victimAddress, 17, 512, 64⟩ ∧
      ¬ ((IngressFilterRx 1000000000 (spoofed routerVictimSide victimAddress)
            routerIpv4 1 []).cout = [⟨1000000000, routerVictimSide, 1⟩] ↔
          routerVictimSide.CombineMask (routerIpv4.GetAddress 1 0).GetMask ≠
            (routerIpv4.GetAddress 1 0).GetLocal.CombineMask
              (routerIpv4.GetAddress 1 0).GetMask) := by
  refine ⟨rfl, ?_⟩
  decide

/-- C1 (amended): on interface 1, for a packet whose IPv4 header parses and
carries protocol 17, a detection (time, source, interface 1) is appended to
the output if and only if the router does not accept the source as one of its
own destinations and the masked source differs from the masked local address
of the interface; otherwise the output is unchanged. -/
theorem C1_flag_iff_mismatch_and_not_own (now : Time) (packet : Packet) (ipv4 : Ipv4)
    (cout : List Detection) (ip : Ipv4Header)
    (hpeek : packet.PeekHeader = some ip) (hproto : ip.GetProtocol = 17) :
    ((IngressFilterRx now packet ipv4 1 cout).cout = cout ++ [⟨now, ip.GetSource, 1⟩] ↔
        (ipv4.IsDestinationAddress ip.GetSource 1 = false ∧
          ip.GetSource.CombineMask (ipv4.GetAddress 1 0).GetMask ≠
            (ipv4.GetAddress 1 0).GetLocal.CombineMask (ipv4.GetAddress 1 0).GetMask)) ∧
      ((IngressFilterRx now packet ipv4 1 cout).cout = cout ↔
        ¬ (ipv4.IsDestinationAddress ip.GetSource 1 = false ∧
          ip.GetSource.CombineMask (ipv4.GetAddress 1 0).GetMask ≠
            (ipv4.GetAddress 1 0).GetLocal.CombineMask (ipv4.GetAddress 1 0).GetMask)) := by
  rw [IngressFilterRx_udp_on_one now packet ipv4 cout ip hpeek hproto]
  by_cases hown : ipv4.IsDestinationAddress ip.GetSource 1 = true
  · simp [hown, (append_singleton_ne_self cout _).symm]
  · have hown2 : ipv4.IsDestinationAddress ip.GetSource 1 = false := by
      simpa using hown
    by_cases hne : ip.GetSource.CombineMask (ipv4.GetAddress 1 0).GetMask =
        (ipv4.GetAddress 1 0).GetLocal.CombineMask (ipv4.GetAddress 1 0).GetMask
    · simp [hown2, hne, (append_singleton_ne_self cout _).symm]
    · simp [hown2, hne, append_singleton_ne_self cout _]

/-- C1 (amended) at concrete inputs: the off-subnet source `10.1.2.10` sent to
the victim parses with protocol 17 and is flagged on interface 1 of the
scenario router. -/
theorem C1_flag_iff_mismatch_and_not_own_witness :
    (spoofed (Ipv4Address.ofOctets 10 1 2 10) victimAddress).PeekHeader =
        some ⟨Ipv4Address.ofOctets 10 1 2 10, victimAddress, 17, 512, 64⟩ ∧
      (Ipv4Header.mk (Ipv4Address.ofOctets 10 1 2 10) victimAddress 17 512 64).GetProtocol
        = 17 ∧
      (IngressFilterRx 1100000000 (spoofed (Ipv4Address.ofOctets 10 1 2 10) victimAddress)
          routerIpv4 1 []).cout =
        [⟨1100000000, Ipv4Address.ofOctets 10 1 2 10, 1⟩] :=
  ⟨rfl, rfl,
    (C1_flag_iff_mismatch_and_not_own 1100000000
      (spoofed (Ipv4Address.ofOctets 10 1 2 10) victimAddress) routerIpv4 []
      ⟨Ipv4Address.ofOctets 10 1 2 10, victimAddress, 17, 512, 64⟩ rfl rfl).1.mpr
      ⟨by decide, by decide⟩⟩

/-- C2: whenever the router accepts the source of the packet's IPv4 header as
one of its own destinations on the arrival interface, `IngressFilterRx` emits
nothing, whatever the masked source is. -/
theorem C2_own_source_not_flagged (now : Time) (packet : Packet) (ipv4 : Ipv4)
    (interface : Nat) (cout : List Detection) (ip : Ipv4Header)
    (hpeek : packet.PeekHeader = some ip)
    (hown : ipv4.IsDestinationAddress ip.GetSource interface = true) :
    (IngressFilterRx now packet ipv4 interface cout).cout = cout := by
  by_cases hif : interface = 1
  · subst hif
    by_cases hproto : ip.GetProtocol = 17 <;>
      simp [IngressFilterRx, Packet.Copy, hpeek, hproto, hown]
  · simp [IngressFilterRx, hif]

/-- C2 at concrete inputs: source `10.1.2.1` is an address of the scenario
router, its masked value differs from the subnet of interface 1, and nothing
is emitted. -/
theorem C2_own_source_not_flagged_witness :
    (spoofed routerVictimSide victimAddress).PeekHeader =
        some ⟨routerVictimSide, victimAddress, 17, 512, 64⟩ ∧
      routerIpv4.IsDestinationAddress routerVictimSide 1 = true ∧
      routerVictimSide.CombineMask (routerIpv4.GetAddress 1 0).GetMask ≠
        (routerIpv4.GetAddress 1 0).GetLocal.CombineMask (routerIpv4.GetAddress 1 0).GetMask ∧
      (IngressFilterRx 5 (spoofed routerVictimSide victimAddress) routerIpv4 1 []).cout = [] :=
  ⟨rfl, by decide, by decide,
    C2_own_source_not_flagged 5 (spoofed routerVictimSide victimAddress) routerIpv4 1 []
      ⟨routerVictimSide, victimAddress, 17, 512, 64⟩ rfl (by decide)⟩

/-- C3: `IngressFilterRx` is detect-only. After the call the inspected packet
is the packet that was passed in, with its header stack and payload as they
were, and the output is either untouched or extended by exactly one record
stamped with the current time and the arrival interface. -/
theorem C3_detect_only (now : Time) (packet : Packet) (ipv4 : Ipv4) (interface : Nat)
    (cout : List Detection) :
    (IngressFilterRx now packet ipv4 interface cout).packet = packet ∧
      (IngressFilterRx now packet ipv4 interface cout).packet.headers = packet.headers ∧
      (IngressFilterRx now packet ipv4 interface cout).packet.payload = packet.payload ∧
      ((IngressFilterRx now packet ipv4 interface cout).cout = cout ∨
        ∃ src, (IngressFilterRx now packet ipv4 interface cout).cout =
          cout ++ [⟨now, src, interface⟩]) := by
  have hpkt : (IngressFilterRx now packet ipv4 interface cout).packet = packet := by
    unfold IngressFilterRx
    split_ifs
    · rfl
    · dsimp only
      split
      · rfl
      · split_ifs <;> rfl
  refine ⟨hpkt, by rw [hpkt], by rw [hpkt], ?_⟩
  unfold IngressFilterRx
  split_ifs
  · exact Or.inl rfl
  · dsimp only
    split
    · exact Or.inl rfl
    · rename_i ip _
      split_ifs
      · exact Or.inl rfl
      · exact Or.inl rfl
      · exact Or.inr ⟨ip.GetSource, rfl⟩
      · exact Or.inl rfl

/-- C4: on every interface other than interface 1 the filter emits nothing
and returns at once, whatever the packet is. -/
theorem C4_other_interface_not_flagged (now : Time) (packet : Packet) (ipv4 : Ipv4)
    (interface : Nat) (cout : List Detection) (hif : interface ≠ 1) :
    (IngressFilterRx now packet ipv4 interface cout).cout = cout := by
  simp [IngressFilterRx, hif]

/-- C4 at concrete inputs: the off-subnet UDP packet arriving on interface 2
of the scenario router is not flagged. -/
theorem C4_other_interface_not_flagged_witness :
    (2 : Nat) ≠ 1 ∧
      (IngressFilterRx 7 (spoofed (Ipv4Address.ofOctets 10 1 2 10) victimAddress)
        routerIpv4 2 []).cout = [] :=
  ⟨by decide,
    C4_other_interface_not_flagged 7 (spoofed (Ipv4Address.ofOctets 10 1 2 10) victimAddress)
      routerIpv4 2 [] (by decide)⟩

/-- C5: a packet whose IPv4 header carries a protocol other than 17 is never
flagged, on any interface and for any source address. -/
theorem C5_non_udp_not_flagged (now : Time) (packet : Packet) (ipv4 : Ipv4)
    (interface : Nat) (cout : List Detection) (ip : Ipv4Header)
    (hpeek : packet.PeekHeader = some ip) (hproto : ip.GetProtocol ≠ 17) :
    (IngressFilterRx now packet ipv4 interface cout).cout = cout := by
  by_cases hif : interface = 1
  · subst hif
    simp [IngressFilterRx, Packet.Copy, hpeek, hproto]
  · simp [IngressFilterRx, hif]

/-- C5 at concrete inputs: a TCP (protocol 6) packet from the off-subnet
source `10.1.2.10`, which the router does not accept as its own, arrives on
interface 1 and is not flagged. -/
theorem C5_non_udp_not_flagged_witness :
    (Packet.mk [Chunk.ipv4 ⟨Ipv4Address.ofOctets 10 1 2 10, victimAddress, 6, 512, 64⟩]
        []).PeekHeader = some ⟨Ipv4Address.ofOctets 10 1 2 10, victimAddress, 6, 512, 64⟩ ∧
      (Ipv4Header.mk (Ipv4Address.ofOctets 10 1 2 10) victimAddress 6 512 64).GetProtocol
        ≠ 17 ∧
      routerIpv4.IsDestinationAddress (Ipv4Address.ofOctets 10 1 2 10) 1 = false ∧
      (Ipv4Address.ofOctets 10 1 2 10).CombineMask (routerIpv4.GetAddress 1 0).GetMask ≠
        (routerIpv4.GetAddress 1 0).GetLocal.CombineMask (routerIpv4.GetAddress 1 0).GetMask ∧
      (IngressFilterRx 9
        (Packet.mk [Chunk.ipv4 ⟨Ipv4Address.ofOctets 10 1 2 10, victimAddress, 6, 512, 64⟩] [])
        routerIpv4 1 []).cout = [] :=
  ⟨rfl, by decide, by decide, by decide,
    C5_non_udp_not_flagged 9
      (Packet.mk [Chunk.ipv4 ⟨Ipv4Address.ofOctets 10 1 2 10, victimAddress, 6, 512, 64⟩] [])
      routerIpv4 1 [] ⟨Ipv4Address.ofOctets 10 1 2 10, victimAddress, 6, 512, 64⟩ rfl
      (by decide)⟩

/-- C6: in the spoofing scenario, with router interface 1 configured as
`10.1.1.2/255.255.255.0`, `SendSpoofedPacket` with source `s` hands the socket
one packet whose outermost header reads back with source `s` and protocol 17;
built with source `10.1.1.10` it is not flagged by `IngressFilterRx` on
interface 1, built with source `10.1.2.10` it is flagged, for every
destination, time and previous output. -/
theorem C6_scenario_spoofed_packets (socket : Socket) (dst : Ipv4Address) (now : Time)
    (cout : List Detection) :
    routerIpv4.GetAddress 1 0 =
        ⟨Ipv4Address.ofOctets 10 1 1 2, Ipv4Mask.ofOctets 255 255 255 0⟩ ∧
      (∀ s : Ipv4Address,
        (SendSpoofedPacket socket s dst).sent = socket.sent ++ [⟨spoofed s dst, 0, ⟨dst, 9⟩⟩] ∧
        ∃ ip, (spoofed s dst).PeekHeader = some ip ∧ ip.GetSource = s ∧
          ip.GetProtocol = 17) ∧
      (IngressFilterRx now (spoofed (Ipv4Address.ofOctets 10 1 1 10) dst) routerIpv4 1
        cout).cout = cout ∧
      (IngressFilterRx now (spoofed (Ipv4Address.ofOctets 10 1 2 10) dst) routerIpv4 1
        cout).cout = cout ++ [⟨now, Ipv4Address.ofOctets 10 1 2 10, 1⟩] := by
  refine ⟨by decide, fun s => ⟨rfl, _, rfl, rfl, rfl⟩, ?_, ?_⟩
  · rw [IngressFilterRx_udp_on_one now _ routerIpv4 cout _ (spoofed_PeekHeader _ dst) rfl]
    have h1 : routerIpv4.IsDestinationAddress (Ipv4Address.ofOctets 10 1 1 10) 1 = false := by
      decide
    have h2 : (Ipv4Address.ofOctets 10 1 1 10).CombineMask (routerIpv4.GetAddress 1 0).GetMask =
        (routerIpv4.GetAddress 1 0).GetLocal.CombineMask (routerIpv4.GetAddress 1 0).GetMask := by
      decide
    simp [Ipv4Header.GetSource, h1, h2]
  · rw [IngressFilterRx_udp_on_one now _ routerIpv4 cout _ (spoofed_PeekHeader _ dst) rfl]
    have h1 : routerIpv4.IsDestinationAddress (Ipv4Address.ofOctets 10 1 2 10) 1 = false := by
      decide
    have h2 : (Ipv4Address.ofOctets 10 1 2 10).CombineMask (routerIpv4.GetAddress 1 0).GetMask ≠
        (routerIpv4.GetAddress 1 0).GetLocal.CombineMask (routerIpv4.GetAddress 1 0).GetMask := by
      decide
    simp [Ipv4Header.GetSource, h1, h2]

/-! ## Per-flow report (`tcpvsudp.cc`) -/

/-- C7: the report loop of `tcpvsudp.cc` has no `rxPackets` test. For the
statistics map holding the single flow 1 with `rxPackets = 0` a report line
with a throughput value (here `0 * 8.0 / (0 - 1) / 1e6`, which is `-0`) is
produced all the same. -/
theorem C7_throughput_computed_without_rx :
    flowNoRx.rxPackets = 0 ∧
      tcpvsudpReport sampleClassifier [(1, flowNoRx)] =
        [⟨1, Ipv4Address.ofOctets 10 1 1 1, Ipv4Address.ofOctets 10 1 3 2,
          Double.finite true 0 0, 3⟩] := by
  refine ⟨rfl, ?_⟩
  decide

/-- C8 (as stated) fails: for a flow that received 1000000 bytes between
1 s and 2 s the formula `rxBytes × 8 / (lastRxTime − firstTxTime)` gives
8000000 (`15625 * 2^9`), while the reported throughput is 8 (`1 * 2^3`). -/
theorem C8_reported_not_bits_per_second :
    specThroughput flowOneSecond = Double.finite false 15625 9 ∧
      (tcpvsudpReport sampleClassifier [(1, flowOneSecond)]).map FlowLine.throughput =
        [Double.finite false 1 3] ∧
      ¬ ((tcpvsudpReport sampleClassifier [(1, flowOneSecond)]).map FlowLine.throughput =
          [specThroughput flowOneSecond]) := by
  decide

/-- C8 (amended): the report has one line per flow of the statistics map, in
order, and the throughput on every line is the quotient
`rxBytes × 8 / (lastRxTime − firstTxTime)` of that flow, times in seconds,
divided by `1e6`: megabits per second. -/
theorem C8_throughput_in_megabits (classifier : Nat → FiveTuple)
    (stats : List (Nat × FlowStats)) :
    (∀ l ∈ tcpvsudpReport classifier stats,
        ∃ st, (l.flowId, st) ∈ stats ∧
          l.throughput = Double.div (specThroughput st) (Double.ofNat 1000000)) ∧
      (tcpvsudpReport classifier stats).map (fun l => l.flowId) =
        stats.map (fun it => it.1) := by
  refine ⟨?_, ?_⟩
  · intro l hl
    obtain ⟨it, hit, rfl⟩ := List.mem_map.mp hl
    exact ⟨it.2, hit, rfl⟩
  · simp [tcpvsudpReport]

/-- C8 (amended) at concrete inputs: the line of the flow that received
1000000 bytes between 1 s and 2 s carries 8000000 / 1e6. -/
theorem C8_throughput_in_megabits_witness :
    (⟨1, Ipv4Address.ofOctets 10 1 1 1, Ipv4Address.ofOctets 10 1 3 2,
        Double.finite false 1 3, 0⟩ : FlowLine) ∈
        tcpvsudpReport sampleClassifier [(1, flowOneSecond)] ∧
      ∃ st, ((1 : Nat), st) ∈ [((1 : Nat), flowOneSecond)] ∧
        Double.finite false 1 3 = Double.div (specThroughput st) (Double.ofNat 1000000) :=
  ⟨by decide,
    (C8_throughput_in_megabits sampleClassifier [(1, flowOneSecond)]).1
      ⟨1, Ipv4Address.ofOctets 10 1 1 1, Ipv4Address.ofOctets 10 1 3 2,
        Double.finite false 1 3, 0⟩ (by decide)⟩

/-! ## Trace counters (`TCP-Packet-drops-time.cc`, `UDP-Packet-drops-time.cc`) -/

/-- Running one more event after a run is firing it on the run's result. -/
theorem runTrace_append_one (events : List TraceEvent) (e : TraceEvent) (s : TraceState) :
    runTrace (events ++ [e]) s = e.fire (runTrace events s) := by
  simp [runTrace, List.foldl_append]

/-- Incrementing a reduced count modulo `2^64`. -/
theorem succ_mod_word (n : Nat) : (n % 2 ^ 64 + 1) % 2 ^ 64 = (n + 1) % 2 ^ 64 := by
  omega

/-- The three counters after a run from the initial state count the firings
of their own trace source, modulo `2^64`. -/
theorem runTrace_counters (events : List TraceEvent) :
    (runTrace events TraceState.initial).client1TxPackets =
        events.countP TraceEvent.isClient1Tx % 2 ^ 64 ∧
      (runTrace events TraceState.initial).client2TxPackets =
        events.countP TraceEvent.isClient2Tx % 2 ^ 64 ∧
      (runTrace events TraceState.initial).totalQueueDrops =
        events.countP TraceEvent.isQueueDrop % 2 ^ 64 := by
  induction events using List.reverseRecOn with
  | nil => exact ⟨rfl, rfl, rfl⟩
  | append_singleton l e ih =>
    obtain ⟨h1, h2, h3⟩ := ih
    rw [runTrace_append_one]
    cases e with
    | client1Tx packet =>
      simp [TraceEvent.fire, Client1TxTrace, TraceEvent.isClient1Tx, TraceEvent.isClient2Tx,
        TraceEvent.isQueueDrop, List.countP_append, h1, h2, h3, succ_mod_word]
    | client2Tx packet =>
      simp [TraceEvent.fire, Client2TxTrace, TraceEvent.isClient1Tx, TraceEvent.isClient2Tx,
        TraceEvent.isQueueDrop, List.countP_append, h1, h2, h3, succ_mod_word]
    | queueDrop now item =>
      simp [TraceEvent.fire, QueueDiscDropTrace, TraceEvent.isClient1Tx,
        TraceEvent.isClient2Tx, TraceEvent.isQueueDrop, List.countP_append, h1, h2, h3,
        succ_mod_word]

/-- A sequence of drops only, from a state whose drop counter is `0`. -/
theorem drops_from_zero (drops : List (Time × QueueDiscItem)) (s : TraceState) :
    (drops.foldl (fun st d => QueueDiscDropTrace d.1 d.2 st)
        { s with totalQueueDrops := 0 }).totalQueueDrops = drops.length % 2 ^ 64 := by
  induction drops using List.reverseRecOn with
  | nil => rfl
  | append_singleton l d ih =>
    rw [List.foldl_append]
    simp only [List.foldl_cons, List.foldl_nil, List.length_append, List.length_singleton]
    show (_ + 1) % 2 ^ 64 = _
    rw [ih, succ_mod_word]

/-- C9: one call of `QueueDiscDropTrace` adds exactly one to `totalQueueDrops`
(as a 64-bit unsigned value), appends one line carrying the current virtual
time and the size of the dropped packet, and after any sequence of `n` drops
from a zero counter `totalQueueDrops = n` modulo `2^64`. -/
theorem C9_drop_trace_counts (now : Time) (item : QueueDiscItem) (s : TraceState)
    (drops : List (Time × QueueDiscItem)) :
    (QueueDiscDropTrace now item s).totalQueueDrops = (s.totalQueueDrops + 1) % 2 ^ 64 ∧
      (QueueDiscDropTrace now item s).cout = s.cout ++ [⟨now, item.GetPacket.GetSize⟩] ∧
      (drops.foldl (fun st d => QueueDiscDropTrace d.1 d.2 st)
          { s with totalQueueDrops := 0 }).totalQueueDrops = drops.length % 2 ^ 64 :=
  ⟨rfl, rfl, drops_from_zero drops s⟩

/-- C10: after a run, started from the zero-initialised counters, in which
the trace sources fired in any order, the summary shows the number of
`Client1TxTrace` calls, the number of `Client2TxTrace` calls, their sum, and
the number of `QueueDiscDropTrace` calls, each modulo `2^64`. -/
theorem C10_summary_counts (events : List TraceEvent) :
    summary (runTrace events TraceState.initial) =
      { client1Tx := events.countP TraceEvent.isClient1Tx % 2 ^ 64
        client2Tx := events.countP TraceEvent.isClient2Tx % 2 ^ 64
        totalTx := (events.countP TraceEvent.isClient1Tx +
          events.countP TraceEvent.isClient2Tx) % 2 ^ 64
        totalQueueDrops := events.countP TraceEvent.isQueueDrop % 2 ^ 64 } := by
  obtain ⟨h1, h2, h3⟩ := runTrace_counters events
  simp only [summary, h1, h2, h3]
  congr 1
  exact (Nat.add_mod _ _ _).symm

/-! ## Ingress filter: parse failure and determinism -/

/-- C11: when the IPv4 header of the packet cannot be read (`PeekHeader`
fails), `IngressFilterRx` returns normally with the packet and the output as
they were: no detection, on every interface and for every packet content. -/
theorem C11_unparsed_header_not_flagged (now : Time) (packet : Packet) (ipv4 : Ipv4)
    (interface : Nat) (cout : List Detection) (hpeek : packet.PeekHeader = none) :
    IngressFilterRx now packet ipv4 interface cout = ⟨packet, cout⟩ := by
  by_cases hif : interface = 1
  · subst hif
    simp [IngressFilterRx, Packet.Copy, hpeek]
  · simp [IngressFilterRx, hif]

/-- C11 at concrete inputs: a packet that starts with two bytes of a truncated
header arrives on interface 1 of the scenario router; nothing is emitted. -/
theorem C11_unparsed_header_not_flagged_witness :
    (Packet.mk [Chunk.raw [69, 0]] []).PeekHeader = none ∧
      IngressFilterRx 3 (Packet.mk [Chunk.raw [69, 0]] []) routerIpv4 1 [] =
        ⟨Packet.mk [Chunk.raw [69, 0]] [], []⟩ :=
  ⟨rfl, C11_unparsed_header_not_flagged 3 (Packet.mk [Chunk.raw [69, 0]] []) routerIpv4 1 []
    rfl⟩

/-- C18: the verdict depends on the arrival interface, the header's protocol
and source address and the router's configuration only. Two packets whose
headers agree on source and protocol, arriving on the same interface of the
same router at the same time, leave the same output, whatever their
destination address, TTL, payload size and payload bytes. -/
theorem C18_verdict_depends_on_source_and_protocol (now : Time) (p1 p2 : Packet)
    (ipv4 : Ipv4) (interface : Nat) (cout : List Detection) (ip1 ip2 : Ipv4Header)
    (hpeek1 : p1.PeekHeader = some ip1) (hpeek2 : p2.PeekHeader = some ip2)
    (hsrc : ip1.GetSource = ip2.GetSource) (hproto : ip1.GetProtocol = ip2.GetProtocol) :
    (IngressFilterRx now p1 ipv4 interface cout).cout =
      (IngressFilterRx now p2 ipv4 interface cout).cout := by
  by_cases hif : interface = 1
  · subst hif
    by_cases h17 : ip1.GetProtocol = 17
    · rw [IngressFilterRx_udp_on_one now p1 ipv4 cout ip1 hpeek1 h17,
        IngressFilterRx_udp_on_one now p2 ipv4 cout ip2 hpeek2 (hproto ▸ h17), hsrc]
      split_ifs <;> rfl
    · have h17b : ip2.GetProtocol ≠ 17 := hproto ▸ h17
      simp [IngressFilterRx, Packet.Copy, hpeek1, hpeek2, h17, h17b]
  · simp [IngressFilterRx, hif]

/-- C18 at concrete inputs: two UDP packets from `10.1.2.10` that differ in
destination, TTL and payload get the same output on interface 1 of the
scenario router. -/
theorem C18_verdict_depends_on_source_and_protocol_witness :
    (spoofed (Ipv4Address.ofOctets 10 1 2 10) victimAddress).PeekHeader =
        some ⟨Ipv4Address.ofOctets 10 1 2 10, victimAddress, 17, 512, 64⟩ ∧
      (Packet.mk [Chunk.ipv4 ⟨Ipv4Address.ofOctets 10 1 2 10, routerVictimSide, 17, 3, 1⟩]
        [7, 7, 7]).PeekHeader =
        some ⟨Ipv4Address.ofOctets 10 1 2 10, routerVictimSide, 17, 3, 1⟩ ∧
      (IngressFilterRx 4 (spoofed (Ipv4Address.ofOctets 10 1 2 10) victimAddress)
          routerIpv4 1 []).cout =
        (IngressFilterRx 4
          (Packet.mk [Chunk.ipv4 ⟨Ipv4Address.ofOctets 10 1 2 10, routerVictimSide, 17, 3, 1⟩]
            [7, 7, 7]) routerIpv4 1 []).cout :=
  ⟨rfl, rfl,
    C18_verdict_depends_on_source_and_protocol 4
      (spoofed (Ipv4Address.ofOctets 10 1 2 10) victimAddress)
      (Packet.mk [Chunk.ipv4 ⟨Ipv4Address.ofOctets 10 1 2 10, routerVictimSide, 17, 3, 1⟩]
        [7, 7, 7])
      routerIpv4 1 [] ⟨Ipv4Address.ofOctets 10 1 2 10, victimAddress, 17, 512, 64⟩
      ⟨Ipv4Address.ofOctets 10 1 2 10, routerVictimSide, 17, 3, 1⟩ rfl rfl rfl rfl⟩

/-! ## Trace counters: independence -/

/-- C17: each trace callback changes its own counter only. `Client1TxTrace`
and `Client2TxTrace` leave the other two counters and the output as they
were and do the same for every packet; `QueueDiscDropTrace` leaves the two
TX counters as they were, and the three counters after it are the same for
every dropped item and time (the item only supplies the size printed). -/
theorem C17_counters_independent (packet packet' : Packet) (now now' : Time)
    (item item' : QueueDiscItem) (s : TraceState) :
    ((Client1TxTrace packet s).client1TxPackets = (s.client1TxPackets + 1) % 2 ^ 64 ∧
        (Client1TxTrace packet s).client2TxPackets = s.client2TxPackets ∧
        (Client1TxTrace packet s).totalQueueDrops = s.totalQueueDrops ∧
        (Client1TxTrace packet s).cout = s.cout ∧
        Client1TxTrace packet s = Client1TxTrace packet' s) ∧
      ((Client2TxTrace packet s).client2TxPackets = (s.client2TxPackets + 1) % 2 ^ 64 ∧
        (Client2TxTrace packet s).client1TxPackets = s.client1TxPackets ∧
        (Client2TxTrace packet s).totalQueueDrops = s.totalQueueDrops ∧
        (Client2TxTrace packet s).cout = s.cout ∧
        Client2TxTrace packet s = Client2TxTrace packet' s) ∧
      ((QueueDiscDropTrace now item s).totalQueueDrops = (s.totalQueueDrops + 1) % 2 ^ 64 ∧
        (QueueDiscDropTrace now item s).client1TxPackets = s.client1TxPackets ∧
        (QueueDiscDropTrace now item s).client2TxPackets = s.client2TxPackets ∧
        (QueueDiscDropTrace now item s).totalQueueDrops =
          (QueueDiscDropTrace now' item' s).totalQueueDrops ∧
        (QueueDiscDropTrace now item s).client1TxPackets =
          (QueueDiscDropTrace now' item' s).client1TxPackets ∧
        (QueueDiscDropTrace now item s).client2TxPackets =
          (QueueDiscDropTrace now' item' s).client2TxPackets) :=
  ⟨⟨rfl, rfl, rfl, rfl, rfl⟩, ⟨rfl, rfl, rfl, rfl, rfl⟩, ⟨rfl, rfl, rfl, rfl, rfl, rfl⟩⟩

/-! ## Per-flow reports: lost packets and mean delay -/

/-- The lost-packet count of a snapshot, as an integer, when nothing was
delivered twice. -/
theorem snapshot_lost (r : FlowRecord) (hdup : r.rxPackets ≤ r.txPackets) :
    ((r.snapshot.lostPackets : ℕ) : ℤ) = (r.txPackets : ℤ) - (r.rxPackets : ℤ) ∧
      (0 : ℤ) ≤ (r.txPackets : ℤ) - (r.rxPackets : ℤ) := by
  have h : r.snapshot.lostPackets = r.txPackets - r.rxPackets := rfl
  omega

/-- C12: both reports print one line per tracked flow, in order, and on
every line the `Lost packets` value is the snapshot's `txPackets − rxPackets`
of that flow; for a flow without duplicate delivery (`rxPackets ≤ txPackets`)
this is the integer difference, which is not negative. -/
theorem C12_lost_is_tx_minus_rx (classifier : Nat → FiveTuple)
    (records : List (Nat × FlowRecord)) :
    (∀ l ∈ aqmredReport classifier (snapshotAll records),
        ∃ r, (l.flowId, r) ∈ records ∧ l.lostPackets = r.txPackets - r.rxPackets ∧
          (r.rxPackets ≤ r.txPackets →
            (l.lostPackets : ℤ) = (r.txPackets : ℤ) - (r.rxPackets : ℤ) ∧
              (0 : ℤ) ≤ (r.txPackets : ℤ) - (r.rxPackets : ℤ))) ∧
      (∀ l ∈ tcpvsudpReport classifier (snapshotAll records),
        ∃ r, (l.flowId, r) ∈ records ∧ l.lostPackets = r.txPackets - r.rxPackets ∧
          (r.rxPackets ≤ r.txPackets →
            (l.lostPackets : ℤ) = (r.txPackets : ℤ) - (r.rxPackets : ℤ) ∧
              (0 : ℤ) ≤ (r.txPackets : ℤ) - (r.rxPackets : ℤ))) ∧
      (aqmredReport classifier (snapshotAll records)).map (fun l => l.flowId) =
        records.map (fun fr => fr.1) ∧
      (tcpvsudpReport classifier (snapshotAll records)).map (fun l => l.flowId) =
        records.map (fun fr => fr.1) := by
  refine ⟨?_, ?_, ?_, ?_⟩
  · intro l hl
    obtain ⟨fs, hfs, rfl⟩ := List.mem_map.mp hl
    obtain ⟨fr, hfr, rfl⟩ := List.mem_map.mp hfs
    exact ⟨fr.2, hfr, rfl, snapshot_lost fr.2⟩
  · intro l hl
    obtain ⟨fs, hfs, rfl⟩ := List.mem_map.mp hl
    obtain ⟨fr, hfr, rfl⟩ := List.mem_map.mp hfs
    exact ⟨fr.2, hfr, rfl, snapshot_lost fr.2⟩
  · simp [aqmredReport, snapshotAll]
  · simp [tcpvsudpReport, snapshotAll]

/-- C12 at concrete inputs: for a flow with 10 packets sent and 7 received
the `aqmred.cc` report prints 3 lost packets. -/
theorem C12_lost_is_tx_minus_rx_witness :
    (⟨4, Ipv4Address.ofOctets 10 1 1 1, Ipv4Address.ofOctets 10 1 3 2, 3,
        some (Double.finite false 5764607523034235 (-59))⟩ : AqmFlowLine) ∈
        aqmredReport sampleClassifier
          (snapshotAll [(4, ⟨10, 7, 15000, 10500, 1000000000, 9000000000, 70000000⟩)]) ∧
      ∃ r, ((4 : Nat), r) ∈
          [((4 : Nat), (⟨10, 7, 15000, 10500, 1000000000, 9000000000, 70000000⟩ : FlowRecord))] ∧
        (3 : Nat) = r.txPackets - r.rxPackets ∧
        (r.rxPackets ≤ r.txPackets →
          ((3 : Nat) : ℤ) = (r.txPackets : ℤ) - (r.rxPackets : ℤ) ∧
            (0 : ℤ) ≤ (r.txPackets : ℤ) - (r.rxPackets : ℤ)) :=
  ⟨by decide,
    (C12_lost_is_tx_minus_rx sampleClassifier
      [(4, ⟨10, 7, 15000, 10500, 1000000000, 9000000000, 70000000⟩)]).1
      ⟨4, Ipv4Address.ofOctets 10 1 1 1, Ipv4Address.ofOctets 10 1 3 2, 3,
        some (Double.finite false 5764607523034235 (-59))⟩ (by decide)⟩

/-- C16: the `aqmred.cc` report has one block per flow of the statistics map,
in order, and on every block the mean delay is present exactly when the
flow's `rxPackets > 0`; when present it is `delaySum.GetSeconds ()` divided
by `rxPackets`, so the divisor of every division performed is not zero. -/
theorem C16_mean_delay_guarded (classifier : Nat → FiveTuple)
    (stats : List (Nat × FlowStats)) :
    (∀ l ∈ aqmredReport classifier stats,
        ∃ st, (l.flowId, st) ∈ stats ∧
          (l.meanDelay.isSome = true ↔ 0 < st.rxPackets) ∧
          (st.rxPackets = 0 → l.meanDelay = none) ∧
          (0 < st.rxPackets →
            l.meanDelay =
              some (Double.div (GetSeconds st.delaySum) (Double.ofNat st.rxPackets))) ∧
          (∀ v, l.meanDelay = some v →
            st.rxPackets ≠ 0 ∧
              v = Double.div (GetSeconds st.delaySum) (Double.ofNat st.rxPackets))) ∧
      (aqmredReport classifier stats).map (fun l => l.flowId) = stats.map (fun flow => flow.1) := by
  refine ⟨?_, ?_⟩
  · intro l hl
    obtain ⟨flow, hflow, rfl⟩ := List.mem_map.mp hl
    refine ⟨flow.2, hflow, ?_, ?_, ?_, ?_⟩
    · by_cases h : 0 < flow.2.rxPackets <;> simp [h]
    · intro h
      simp [h]
    · intro h
      simp [h]
    · intro v hv
      by_cases h : 0 < flow.2.rxPackets
      · simp only [gt_iff_lt, h, if_true, Option.some.injEq] at hv
        exact ⟨Nat.pos_iff_ne_zero.mp h, hv.symm⟩
      · simp [h] at hv
  · simp [aqmredReport]

/-- C16 at concrete inputs: in the report of a two-flow map the block of the
flow without received packets carries no mean delay. -/
theorem C16_mean_delay_guarded_witness :
    (⟨2, Ipv4Address.ofOctets 10 1 1 1, Ipv4Address.ofOctets 10 1 3 2, 3, none⟩ :
        AqmFlowLine) ∈ aqmredReport sampleClassifier [(1, flowOneSecond), (2, flowNoRx)] ∧
      ∃ st, ((2 : Nat), st) ∈ [((1 : Nat), flowOneSecond), (2, flowNoRx)] ∧
        ((none : Option Double).isSome = true ↔ 0 < st.rxPackets) ∧
        (st.rxPackets = 0 → (none : Option Double) = none) ∧
        (0 < st.rxPackets →
          (none : Option Double) =
            some (Double.div (GetSeconds st.delaySum) (Double.ofNat st.rxPackets))) ∧
        (∀ v, (none : Option Double) = some v →
          st.rxPackets ≠ 0 ∧
            v = Double.div (GetSeconds st.delaySum) (Double.ofNat st.rxPackets)) :=
  ⟨by decide,
    (C16_mean_delay_guarded sampleClassifier [(1, flowOneSecond), (2, flowNoRx)]).1
      ⟨2, Ipv4Address.ofOctets 10 1 1 1, Ipv4Address.ofOctets 10 1 3 2, 3, none⟩ (by decide)⟩

/-! ## Link delay (`point-to-pointdelay.cc`) -/

/-- C13: on a link of rate `R` bits/s a packet of `S` bits takes exactly
`S / R` to transmit (so `R` times the delay is `S`), transmission completes
at `now + S / R` and the packet arrives one propagation delay later. For the
defaults of `point-to-pointdelay.cc` (1024 bytes, 10 Mbps, 10 ms) the
transmission delay is 0.8192 ms and the packet arrives 10.8192 ms after the
start. -/
theorem C13_transmission_and_arrival (l : Link) (now S : ℚ) (hR : 0 < l.dataRate) :
    l.transmissionDelay S = S / l.dataRate ∧
      l.transmissionDelay S * l.dataRate = S ∧
      (l.transmit now S).completion = now + S / l.dataRate ∧
      (l.transmit now S).arrival = (l.transmit now S).completion + l.propagationDelay ∧
      pointToPointLink.transmissionDelay ((PointToPointDelay.packetSize : ℚ) * 8) =
        8192 / 10000 / 1000 ∧
      (pointToPointLink.transmit now ((PointToPointDelay.packetSize : ℚ) * 8)).arrival - now =
        108192 / 10000 / 1000 := by
  refine ⟨rfl, ?_, rfl, rfl, ?_, ?_⟩
  · unfold Link.transmissionDelay
    exact div_mul_cancel₀ S (ne_of_gt hR)
  · norm_num [Link.transmissionDelay, pointToPointLink, PointToPointDelay.dataRate,
      PointToPointDelay.packetSize]
  · simp only [Link.transmit, Link.transmissionDelay, pointToPointLink,
      PointToPointDelay.dataRate, PointToPointDelay.delay, PointToPointDelay.packetSize]
    ring_nf

/-- C13 at concrete inputs: the default link, a transmission of 8192 bits
started at 1 s. -/
theorem C13_transmission_and_arrival_witness :
    0 < pointToPointLink.dataRate ∧
      (pointToPointLink.transmit 1 8192).completion = 1 + 8192 / pointToPointLink.dataRate ∧
      (pointToPointLink.transmit 1 8192).arrival =
        (pointToPointLink.transmit 1 8192).completion + pointToPointLink.propagationDelay :=
  ⟨by norm_num [pointToPointLink, PointToPointDelay.dataRate],
    (C13_transmission_and_arrival pointToPointLink 1 8192
      (by norm_num [pointToPointLink, PointToPointDelay.dataRate])).2.2.1,
    (C13_transmission_and_arrival pointToPointLink 1 8192
      (by norm_num [pointToPointLink, PointToPointDelay.dataRate])).2.2.2.1⟩

/-! ## RED drop probability (`aqmred.cc`) -/

/-- The drop probability of the queue configured in `aqmred.cc`, with its
thresholds written out. -/
theorem aqmredQueue_dropProbability (maxP : ℚ) (countScale : Nat → ℚ → ℚ) (count : Nat)
    (avg : ℚ) :
    (aqmredQueue maxP countScale).dropProbability count avg =
      if avg < 2 then 0
      else if 5 ≤ avg then
        if 10 ≤ avg then 1
        else countScale count maxP + (1 - countScale count maxP) * (avg - 5) / 5
      else countScale count (maxP * (avg - 2) / 3) := by
  have h3 : maxP * (3 : ℚ) / 3 = maxP := by
    field_simp
  have h10 : (2 : ℚ) * 5 = 10 := by norm_num
  have h53 : (5 : ℚ) - 2 = 3 := by norm_num
  simp only [RedConfig.dropProbability, RedConfig.earlyProbability, aqmredQueue, h10, h53,
    h3, if_true]

/-- C14: for the RED queue as configured in `aqmred.cc` (MinTh 2, MaxTh 5,
gentle mode, capacity 20), with any maximum mark probability `maxP ≥ 0` and
any count scaling that keeps the order of probabilities, keeps them
non-negative and stays at most 1 at `maxP`, the drop probability is
non-decreasing in `avg`, is 0 for `avg` below MinTh and is 1 for `avg` beyond
2×MaxTh. -/
theorem C14_red_drop_probability (maxP : ℚ) (countScale : Nat → ℚ → ℚ) (count : Nat)
    (hmaxP : 0 ≤ maxP)
    (hmono : ∀ p q, p ≤ q → countScale count p ≤ countScale count q)
    (hnonneg : ∀ p, 0 ≤ p → 0 ≤ countScale count p)
    (hle : countScale count maxP ≤ 1) :
    (∀ a b, a ≤ b →
        (aqmredQueue maxP countScale).dropProbability count a ≤
          (aqmredQueue maxP countScale).dropProbability count b) ∧
      (∀ avg, avg < (aqmredQueue maxP countScale).minTh →
        (aqmredQueue maxP countScale).dropProbability count avg = 0) ∧
      (∀ avg, 2 * (aqmredQueue maxP countScale).maxTh < avg →
        (aqmredQueue maxP countScale).dropProbability count avg = 1) := by
  have hpM0 : 0 ≤ countScale count maxP := hnonneg _ hmaxP
  refine ⟨?_, ?_, ?_⟩
  · intro a b hab
    rw [aqmredQueue_dropProbability, aqmredQueue_dropProbability]
    by_cases ha2 : a < 2
    · rw [if_pos ha2]
      by_cases hb2 : b < 2
      · rw [if_pos hb2]
      · rw [if_neg hb2]
        by_cases hb5 : 5 ≤ b
        · rw [if_pos hb5]
          by_cases hb10 : 10 ≤ b
          · rw [if_pos hb10]; norm_num
          · rw [if_neg hb10]
            have : 0 ≤ (1 - countScale count maxP) * (b - 5) / 5 :=
              div_nonneg (mul_nonneg (by linarith) (by linarith)) (by norm_num)
            linarith
        · rw [if_neg hb5]
          exact hnonneg _ (div_nonneg (mul_nonneg hmaxP (by linarith)) (by norm_num))
    · have hb2 : ¬ b < 2 := by linarith
      rw [if_neg ha2, if_neg hb2]
      by_cases ha5 : 5 ≤ a
      · have hb5 : 5 ≤ b := by linarith
        rw [if_pos ha5, if_pos hb5]
        by_cases ha10 : 10 ≤ a
        · have hb10 : 10 ≤ b := by linarith
          rw [if_pos ha10, if_pos hb10]
        · rw [if_neg ha10]
          by_cases hb10 : 10 ≤ b
          · rw [if_pos hb10]
            have : (1 - countScale count maxP) * (a - 5) / 5 ≤ 1 - countScale count maxP := by
              rw [div_le_iff₀ (by norm_num)]
              nlinarith
            linarith
          · rw [if_neg hb10]
            have : (1 - countScale count maxP) * (a - 5) / 5 ≤
                (1 - countScale count maxP) * (b - 5) / 5 := by
              apply div_le_div_of_nonneg_right _ (by norm_num)
              exact mul_le_mul_of_nonneg_left (by linarith) (by linarith)
            linarith
      · rw [if_neg ha5]
        have harg : maxP * (a - 2) / 3 ≤ maxP := by
          rw [div_le_iff₀ (by norm_num)]
          nlinarith
        by_cases hb5 : 5 ≤ b
        · rw [if_pos hb5]
          have h1 : countScale count (maxP * (a - 2) / 3) ≤ countScale count maxP :=
            hmono _ _ harg
          by_cases hb10 : 10 ≤ b
          · rw [if_pos hb10]; linarith
          · rw [if_neg hb10]
            have : 0 ≤ (1 - countScale count maxP) * (b - 5) / 5 :=
              div_nonneg (mul_nonneg (by linarith) (by linarith)) (by norm_num)
            linarith
        · rw [if_neg hb5]
          apply hmono
          apply div_le_div_of_nonneg_right _ (by norm_num)
          exact mul_le_mul_of_nonneg_left (by linarith) hmaxP
  · intro avg h
    have h2 : avg < 2 := h
    rw [aqmredQueue_dropProbability, if_pos h2]
  · intro avg h
    have h10 : (10 : ℚ) < avg := by
      have : 2 * (5 : ℚ) < avg := h
      linarith
    rw [aqmredQueue_dropProbability, if_neg (by linarith), if_pos (by linarith),
      if_pos (by linarith)]

/-- The example scaling keeps the order of probabilities. -/
theorem sampleCountScale_mono (count : Nat) (p q : ℚ) (h : p ≤ q) :
    sampleCountScale count p ≤ sampleCountScale count q := by
  have hc : (0 : ℚ) ≤ 1 + (count : ℚ) := by positivity
  exact min_le_min le_rfl (mul_le_mul_of_nonneg_right h hc)

/-- The example scaling keeps probabilities non-negative. -/
theorem sampleCountScale_nonneg (count : Nat) (p : ℚ) (h : 0 ≤ p) :
    0 ≤ sampleCountScale count p := by
  have hc : (0 : ℚ) ≤ 1 + (count : ℚ) := by positivity
  exact le_min (by norm_num) (mul_nonneg h hc)

/-- C14 at concrete inputs: maximum mark probability 1/50, the example count
scaling, three packets admitted since the last drop. -/
theorem C14_red_drop_probability_witness :
    (0 : ℚ) ≤ 1 / 50 ∧
      sampleCountScale 3 (1 / 50) ≤ 1 ∧
      (aqmredQueue (1 / 50) sampleCountScale).dropProbability 3 3 ≤
        (aqmredQueue (1 / 50) sampleCountScale).dropProbability 3 7 ∧
      (aqmredQueue (1 / 50) sampleCountScale).dropProbability 3 1 = 0 ∧
      (aqmredQueue (1 / 50) sampleCountScale).dropProbability 3 11 = 1 :=
  ⟨by norm_num, min_le_left _ _,
    (C14_red_drop_probability (1 / 50) sampleCountScale 3 (by norm_num)
      (sampleCountScale_mono 3) (sampleCountScale_nonneg 3) (min_le_left _ _)).1 3 7
      (by norm_num),
    (C14_red_drop_probability (1 / 50) sampleCountScale 3 (by norm_num)
      (sampleCountScale_mono 3) (sampleCountScale_nonneg 3) (min_le_left _ _)).2.1 1
      (by norm_num [aqmredQueue]),
    (C14_red_drop_probability (1 / 50) sampleCountScale 3 (by norm_num)
      (sampleCountScale_mono 3) (sampleCountScale_nonneg 3) (min_le_left _ _)).2.2 11
      (by norm_num [aqmredQueue])⟩

/-! ## Schedule loop (`IP_Spoofing_Working_Code.cc`) -/

end APES
